import Mathlib

/-!
# Verification of the kindle-analyzer reporting pipeline

A shallow embedding of the kindle-analyzer repository: the data model
(`BookRecord`), the five grouping operations of the aggregator, the chart
rendering performed by `notebooks/kindle_analysis.ipynb`, and the markdown
list exporter (`src.kindle_analyzer.markdown_exporter`).

The aggregator and exporter modules themselves are not part of the snapshot
(only the notebook, which calls `analyze_kindle_library`, and the README,
which documents the exporter's CLI, are present); those operations are
modelled from the specification, as marked in their doc comments.  The
chart-rendering definitions are translated from the notebook's code cells.
-/

/-- A calendar date, as stored in the BookData.sqlite purchase/publication
timestamp columns. -/
structure Date where
  year : Nat
  month : Nat
  day : Nat
deriving DecidableEq, Repr

/-- A year-month pair, the grouping key of the monthly aggregation. -/
structure YM where
  year : Nat
  month : Nat
deriving DecidableEq, Repr

/-- One row of the in-memory book table: title, author, publisher,
purchase date, publication date and optional content tag.  Fields other
than the title may be missing (NULL in the database). -/
structure BookRecord where
  title : String
  author : Option String
  publisher : Option String
  purchase_date : Option Date
  publication_date : Option Date
  content_tag : Option String
deriving DecidableEq, Repr

/-- Chronological (non-strict) order on year-month keys. -/
def ymLe (a b : YM) : Prop :=
  a.year < b.year ∨ (a.year = b.year ∧ a.month ≤ b.month)

/-- Chronological strict order on year-month keys. -/
def ymLt (a b : YM) : Prop :=
  a.year < b.year ∨ (a.year = b.year ∧ a.month < b.month)

instance (a b : YM) : Decidable (ymLe a b) := by
  unfold ymLe; infer_instance

instance (a b : YM) : Decidable (ymLt a b) := by
  unfold ymLt; infer_instance

/-- Left-pad the decimal digits of `n` with zeros to two places
(month/day formatting, as in strftime's `%m`/`%d`). -/
def pad2 (n : Nat) : String :=
  if n < 10 then "0" ++ toString n else toString n

/-- Left-pad the decimal digits of `n` with zeros to four places
(year formatting, as in strftime's `%Y`). -/
def pad4 (n : Nat) : String :=
  if n < 10 then "000" ++ toString n
  else if n < 100 then "00" ++ toString n
  else if n < 1000 then "0" ++ toString n
  else toString n

/-- The "YYYY-MM" string key of the monthly aggregation. -/
def ymString (ym : YM) : String :=
  pad4 ym.year ++ "-" ++ pad2 ym.month

/-- The "YYYY-MM-DD" rendering of a date in the exported list. -/
def dateString (d : Date) : String :=
  pad4 d.year ++ "-" ++ pad2 d.month ++ "-" ++ pad2 d.day

/-- Truncate a list to an optional upper bound (pandas `head(n)` /
the exporter's `--limit`, the aggregator's optional top-N). -/
def applyLimit {α : Type} (lim : Option Nat) (l : List α) : List α :=
  match lim with
  | none => l
  | some n => l.take n

/-- Distinct keys of `keys`, each paired with its number of occurrences
(the dataframe `value_counts`); rows with a missing attribute never reach
this point because the key extraction drops them. -/
def groupCounts {α : Type} [DecidableEq α] (keys : List α) : List (α × Nat) :=
  keys.dedup.map (fun k => (k, keys.count k))

/-- Sum of the count column of a grouped-count table. -/
def countSum {α : Type} (l : List (α × Nat)) : Nat :=
  (l.map Prod.snd).sum

/-- The year of a record's purchase date, when the purchase date is
present. -/
def purchaseYear (r : BookRecord) : Option Nat :=
  r.purchase_date.map Date.year

/-- The year-month of a record's purchase date, when the purchase date is
present. -/
def purchaseYM (r : BookRecord) : Option YM :=
  r.purchase_date.map (fun d => ⟨d.year, d.month⟩)

/-- Order on (year, count) rows: year ascending. -/
def yearOrder (a b : Nat × Nat) : Prop := a.1 ≤ b.1

instance (a b : Nat × Nat) : Decidable (yearOrder a b) := by
  unfold yearOrder; infer_instance

/-- Order on (year-month, count) rows: chronological ascending. -/
def ymOrder (a b : YM × Nat) : Prop := ymLe a.1 b.1

instance (a b : YM × Nat) : Decidable (ymOrder a b) := by
  unfold ymOrder; infer_instance

/-- Order on (name, count) rows: count descending, ties broken by key
ascending. -/
def countOrder (a b : String × Nat) : Prop :=
  b.2 < a.2 ∨ (a.2 = b.2 ∧ a.1 ≤ b.1)

instance (a b : String × Nat) : Decidable (countOrder a b) := by
  unfold countOrder; infer_instance

/-- Modelled from the spec: `countByYear` of the aggregator module
(`src/kindle_analyzer/analyzer.py`, absent from the snapshot) — count the
records per purchase year, ordered by year ascending; records without a
purchase date are excluded. -/
def countByYear (records : List BookRecord) : List (Nat × Nat) :=
  List.insertionSort yearOrder (groupCounts (records.filterMap purchaseYear))

/-- Modelled from the spec: the monthly aggregation of the absent analyzer
module, keyed by year-month values before formatting — count the records
per purchase month, ordered chronologically ascending, only observed
months appearing. -/
def countByMonthYM (records : List BookRecord) : List (YM × Nat) :=
  List.insertionSort ymOrder (groupCounts (records.filterMap purchaseYM))

/-- Modelled from the spec: `countByMonth` of the absent analyzer module —
the monthly counts with their keys rendered as "YYYY-MM" strings. -/
def countByMonth (records : List BookRecord) : List (String × Nat) :=
  (countByMonthYM records).map (fun p => (ymString p.1, p.2))

/-- Modelled from the spec: `countByPublisher` of the absent analyzer
module — count the records per publisher, ordered by count descending with
ties broken by publisher name ascending, optionally truncated to the top
`topN` rows; records without a publisher are excluded. -/
def countByPublisher (records : List BookRecord) (topN : Option Nat) :
    List (String × Nat) :=
  applyLimit topN
    (List.insertionSort countOrder
      (groupCounts (records.filterMap (fun r => r.publisher))))

/-- Modelled from the spec: `countByAuthor` of the absent analyzer module —
same ordering and truncation rule as `countByPublisher`, keyed by author. -/
def countByAuthor (records : List BookRecord) (topN : Option Nat) :
    List (String × Nat) :=
  applyLimit topN
    (List.insertionSort countOrder
      (groupCounts (records.filterMap (fun r => r.author))))

/-- Modelled from the spec: `countByTag` of the absent analyzer module —
count the records per content tag, ordered by count descending with ties
broken by tag name ascending; records without a tag are excluded. -/
def countByTag (records : List BookRecord) : List (String × Nat) :=
  List.insertionSort countOrder
    (groupCounts (records.filterMap (fun r => r.content_tag)))

/-! ## Chart rendering (from `notebooks/kindle_analysis.ipynb`) -/

/-- The two chart shapes used by the notebook: `sns.barplot` for the
categorical groupings, `sns.lineplot` for the monthly series. -/
inductive ChartKind where
  | bar : ChartKind
  | line : ChartKind
deriving DecidableEq, Repr

/-- One `ax.text` call placed by a notebook plotting cell: a position
index along the category axis and the rendered count text. -/
structure CountLabel where
  pos : Nat
  text : String
deriving DecidableEq, Repr

/-- The `for i, v in enumerate(df["count"]): ax.text(..., str(v), ...)`
loop of the notebook's bar-chart cells: one text label per count, carrying
the decimal rendering of that count. -/
def barTextLabels : Nat → List Nat → List CountLabel
  | _, [] => []
  | i, v :: vs => ⟨i, toString v⟩ :: barTextLabels (i + 1) vs

/-- A rendered chart: its shape, its data points, and the text labels the
plotting cell placed on it. -/
structure Chart where
  kind : ChartKind
  points : List (String × Nat)
  labels : List CountLabel
deriving DecidableEq, Repr

/-- The notebook's bar-chart cells (yearly, publisher, author, tag): a
`sns.barplot` over the grouped counts followed by the `ax.text` loop that
writes each count above/beside its bar. -/
def renderBarChart (data : List (String × Nat)) : Chart :=
  { kind := ChartKind.bar
    points := data
    labels := barTextLabels 0 (data.map Prod.snd) }

/-- The notebook's monthly cell: `sns.lineplot(x="year_month", y="count",
data=monthly_counts, marker="o")` with title and axis labels but no
`ax.text` loop — no count labels are placed on the line chart. -/
def renderMonthlyChart (data : List (String × Nat)) : Chart :=
  { kind := ChartKind.line
    points := data
    labels := [] }

/-! ## Markdown list exporter
(`src.kindle_analyzer.markdown_exporter`, modelled from the spec and the
README's documentation of its CLI and output format) -/

/-- The five sortable columns of the exported list. -/
inductive SortKey where
  | title : SortKey
  | author : SortKey
  | publisher : SortKey
  | purchase_date : SortKey
  | publication_date : SortKey
deriving DecidableEq, Repr

/-- Modelled from the spec: recognition of the `--sort-by` argument by the
absent `src/kindle_analyzer/markdown_exporter.py`; the five recognized
column names are those the README lists for `--sort-by`. -/
def parseSortKey (s : String) : Option SortKey :=
  if s = "title_from_metadata" then some SortKey.title
  else if s = "author" then some SortKey.author
  else if s = "publisher" then some SortKey.publisher
  else if s = "purchase_date" then some SortKey.purchase_date
  else if s = "publication_date" then some SortKey.publication_date
  else none

/-- The recognized `--sort-by` values, as documented in the README. -/
def recognizedSortKeys : List String :=
  ["title_from_metadata", "author", "publisher", "purchase_date",
   "publication_date"]

/-- Non-strict lexicographic order on dates. -/
def dateLe (a b : Date) : Prop :=
  a.year < b.year ∨
    (a.year = b.year ∧
      (a.month < b.month ∨ (a.month = b.month ∧ a.day ≤ b.day)))

instance (a b : Date) : Decidable (dateLe a b) := by
  unfold dateLe; infer_instance

/-- Order on an optional sort attribute: present values compare by `le`
(reversed when `desc`), missing values sort after every present value in
either direction (pandas `na_position="last"`). -/
def optLe {α : Type} (le : α → α → Prop) (desc : Bool) :
    Option α → Option α → Prop
  | none, none => True
  | none, some _ => False
  | some _, none => True
  | some a, some b => if desc then le b a else le a b

instance {α : Type} (le : α → α → Prop) [DecidableRel le] (desc : Bool) :
    DecidableRel (optLe le desc) := fun a b => by
  cases a <;> cases b <;> simp [optLe] <;> infer_instance

/-- Plain string order on a mandatory attribute, reversed when `desc`. -/
def strCmp (desc : Bool) (a b : String) : Prop :=
  if desc then b ≤ a else a ≤ b

instance (desc : Bool) (a b : String) : Decidable (strCmp desc a b) := by
  unfold strCmp; infer_instance

/-- Modelled from the spec: the record order used by the absent exporter's
`sort_values(by=key, ascending=asc)` — compare the requested column,
descending unless `ascending` was passed, missing values last. -/
def recLe (k : SortKey) (asc : Bool) (a b : BookRecord) : Prop :=
  match k with
  | SortKey.title => strCmp (!asc) a.title b.title
  | SortKey.author => optLe (fun x y : String => x ≤ y) (!asc) a.author b.author
  | SortKey.publisher =>
      optLe (fun x y : String => x ≤ y) (!asc) a.publisher b.publisher
  | SortKey.purchase_date => optLe dateLe (!asc) a.purchase_date b.purchase_date
  | SortKey.publication_date =>
      optLe dateLe (!asc) a.publication_date b.publication_date

instance (k : SortKey) (asc : Bool) : DecidableRel (recLe k asc) := fun a b => by
  cases k <;> simp [recLe] <;> infer_instance

/-- Modelled from the spec: the exporter's sort of the book table under the
requested column and direction. -/
def sortRecords (k : SortKey) (asc : Bool) (records : List BookRecord) :
    List BookRecord :=
  List.insertionSort (recLe k asc) records

/-- Modelled from the spec: the records the exporter lists — the sorted
table truncated to the optional `--limit`. -/
def selectRecords (k : SortKey) (asc : Bool) (lim : Option Nat)
    (records : List BookRecord) : List BookRecord :=
  applyLimit lim (sortRecords k asc records)

/-- The placeholder the exporter prints for a missing field (README
example: `**出版社**: 不明`). -/
def missingField : String := "不明"

/-- Render an optional string field, substituting the placeholder when the
value is missing. -/
def fieldStr (o : Option String) : String :=
  match o with
  | none => missingField
  | some s => s

/-- Render an optional date field, substituting the placeholder when the
value is missing. -/
def dateStr (o : Option Date) : String :=
  match o with
  | none => missingField
  | some d => dateString d

/-- The optional tag line of an entry: present only when the record has a
content tag (README: タグ（存在する場合）). -/
def tagLine (o : Option String) : String :=
  match o with
  | none => ""
  | some t => "- **タグ**: " ++ t ++ "\n"

/-- Modelled from the spec: one numbered book entry of the exported
markdown document, in the README's documented format. -/
def formatBook (i : Nat) (r : BookRecord) : String :=
  "## " ++ toString i ++ ". " ++ r.title ++ "\n\n" ++
  "- **著者**: " ++ fieldStr r.author ++ "\n" ++
  "- **出版社**: " ++ fieldStr r.publisher ++ "\n" ++
  "- **購入日**: " ++ dateStr r.purchase_date ++ "\n" ++
  "- **出版日**: " ++ dateStr r.publication_date ++ "\n" ++
  tagLine r.content_tag ++ "\n"

/-- The visual divider the README's example places after each entry. -/
def divider : String := "---\n\n"

/-- The document header: title line and total record count (README
example: `合計: 2543冊`). -/
def mkHeader (n : Nat) : String :=
  "# Kindle蔵書リスト\n\n合計: " ++ toString n ++ "冊\n\n"

/-- Modelled from the spec: the body of the exported document — the
selected records formatted in order, numbered from `i`, each entry
followed by the divider. -/
def renderBody : Nat → List BookRecord → String
  | _, [] => ""
  | i, r :: rs => formatBook i r ++ divider ++ renderBody (i + 1) rs

/-- The entry strings of the body, numbered from `i`, without dividers. -/
def entryStrings : Nat → List BookRecord → List String
  | _, [] => []
  | i, r :: rs => formatBook i r :: entryStrings (i + 1) rs

/-- Modelled from the spec: the full exported document — total-count
header, then the numbered entries. -/
def renderDocument (records selected : List BookRecord) : String :=
  mkHeader records.length ++ renderBody 1 selected

/-- The exporter's failure: an unrecognized `--sort-by` column. -/
inductive ExportError where
  | invalidSortKey : String → ExportError
deriving DecidableEq, Repr

/-- Modelled from the spec: the absent markdown exporter's end-to-end
run — validate the sort key (failing with `InvalidSortKey` before any
output is produced), sort, truncate to the limit, render the document. -/
def exportMarkdown (records : List BookRecord) (sortBy : String)
    (ascending : Bool) (lim : Option Nat) : Except ExportError String :=
  match parseSortKey sortBy with
  | none => Except.error (ExportError.invalidSortKey sortBy)
  | some k => Except.ok (renderDocument records (selectRecords k ascending lim records))

/-- The README-documented default for `--sort-by`. -/
def defaultSortBy : String := "purchase_date"

/-- The README-documented default direction: descending unless
`--ascending` is passed. -/
def defaultAscending : Bool := false

/-- Modelled from the spec: an exporter run with the documented defaults
(sort by purchase date, descending, no limit). -/
def exportDefault (records : List BookRecord) : Except ExportError String :=
  exportMarkdown records defaultSortBy defaultAscending none

/-! ## Order facts for the sort relations -/

lemma ymLe_total (a b : YM) : ymLe a b ∨ ymLe b a := by
  unfold ymLe; omega

lemma ymLe_trans (a b c : YM) : ymLe a b → ymLe b c → ymLe a c := by
  unfold ymLe; omega

lemma ymLt_of_ymLe_ne (a b : YM) (h : ymLe a b) (hne : a ≠ b) : ymLt a b := by
  have hne2 : ¬(a.year = b.year ∧ a.month = b.month) := by
    intro hpair
    apply hne
    cases a
    cases b
    simp only [YM.mk.injEq]
    exact ⟨hpair.1, hpair.2⟩
  unfold ymLe ymLt at *
  omega

instance : IsTotal (Nat × Nat) yearOrder :=
  ⟨fun a b => Nat.le_total a.1 b.1⟩

instance : IsTrans (Nat × Nat) yearOrder :=
  ⟨fun _ _ _ h1 h2 => Nat.le_trans h1 h2⟩

instance : IsTotal (YM × Nat) ymOrder :=
  ⟨fun a b => ymLe_total a.1 b.1⟩

instance : IsTrans (YM × Nat) ymOrder :=
  ⟨fun _ _ _ h1 h2 => ymLe_trans _ _ _ h1 h2⟩

lemma countOrder_total (a b : String × Nat) : countOrder a b ∨ countOrder b a := by
  unfold countOrder
  rcases Nat.lt_trichotomy a.2 b.2 with h | h | h
  · exact Or.inr (Or.inl h)
  · rcases le_total a.1 b.1 with hs | hs
    · exact Or.inl (Or.inr ⟨h, hs⟩)
    · exact Or.inr (Or.inr ⟨h.symm, hs⟩)
  · exact Or.inl (Or.inl h)

lemma countOrder_trans (a b c : String × Nat) :
    countOrder a b → countOrder b c → countOrder a c := by
  unfold countOrder
  rintro (h1 | ⟨h1, h2⟩) <;> rintro (h3 | ⟨h3, h4⟩)
  · exact Or.inl (h3.trans h1)
  · exact Or.inl (by omega)
  · exact Or.inl (by omega)
  · exact Or.inr ⟨h1.trans h3, h2.trans h4⟩

instance : IsTotal (String × Nat) countOrder := ⟨countOrder_total⟩

instance : IsTrans (String × Nat) countOrder := ⟨countOrder_trans⟩

lemma strCmp_total (d : Bool) (a b : String) : strCmp d a b ∨ strCmp d b a := by
  cases d
  · simpa [strCmp] using le_total a b
  · simpa [strCmp] using (le_total a b).symm

lemma strCmp_trans (d : Bool) (a b c : String) :
    strCmp d a b → strCmp d b c → strCmp d a c := by
  cases d <;> simp only [strCmp, if_true, if_false, Bool.false_eq_true] <;>
    intro h1 h2
  · exact h1.trans h2
  · exact h2.trans h1

lemma dateLe_total (a b : Date) : dateLe a b ∨ dateLe b a := by
  unfold dateLe; omega

lemma dateLe_trans (a b c : Date) : dateLe a b → dateLe b c → dateLe a c := by
  unfold dateLe; omega

lemma optLe_total {α : Type} (le : α → α → Prop)
    (htot : ∀ a b, le a b ∨ le b a) (desc : Bool) (x y : Option α) :
    optLe le desc x y ∨ optLe le desc y x := by
  cases x <;> cases y <;> simp only [optLe]
  · exact Or.inl trivial
  · exact Or.inr trivial
  · exact Or.inl trivial
  · cases desc <;> simp only [if_true, if_false, Bool.false_eq_true]
    · exact htot _ _
    · exact (htot _ _).symm

lemma optLe_trans {α : Type} (le : α → α → Prop)
    (htr : ∀ a b c, le a b → le b c → le a c) (desc : Bool)
    (x y z : Option α) :
    optLe le desc x y → optLe le desc y z → optLe le desc x z := by
  cases x <;> cases y <;> cases z <;> simp only [optLe] <;>
    intro h1 h2 <;> try trivial
  cases desc <;> simp only [if_true, if_false, Bool.false_eq_true] at *
  · exact htr _ _ _ h1 h2
  · exact htr _ _ _ h2 h1

instance (k : SortKey) (asc : Bool) : IsTotal BookRecord (recLe k asc) := by
  constructor
  intro a b
  cases k <;> simp only [recLe]
  · exact strCmp_total _ _ _
  · exact optLe_total _ (fun x y => le_total x y) _ _ _
  · exact optLe_total _ (fun x y => le_total x y) _ _ _
  · exact optLe_total _ dateLe_total _ _ _
  · exact optLe_total _ dateLe_total _ _ _

instance (k : SortKey) (asc : Bool) : IsTrans BookRecord (recLe k asc) := by
  constructor
  intro a b c
  cases k <;> simp only [recLe]
  · exact strCmp_trans _ _ _ _
  · exact optLe_trans _ (fun _ _ _ h1 h2 => h1.trans h2) _ _ _ _
  · exact optLe_trans _ (fun _ _ _ h1 h2 => h1.trans h2) _ _ _ _
  · exact optLe_trans _ dateLe_trans _ _ _ _
  · exact optLe_trans _ dateLe_trans _ _ _ _

/-! ## Counting lemmas -/

lemma groupCounts_map_fst {α : Type} [DecidableEq α] (keys : List α) :
    (groupCounts keys).map Prod.fst = keys.dedup := by
  unfold groupCounts
  rw [List.map_map]
  have h : (Prod.fst ∘ fun k : α => (k, keys.count k)) = id := rfl
  rw [h, List.map_id]

lemma countSum_groupCounts {α : Type} [DecidableEq α] (keys : List α) :
    countSum (groupCounts keys) = keys.length := by
  simp only [countSum, groupCounts, List.map_map]
  simpa [Function.comp] using List.sum_map_count_dedup_eq_length keys

lemma countSum_perm {α : Type} {l₁ l₂ : List (α × Nat)} (h : l₁.Perm l₂) :
    countSum l₁ = countSum l₂ :=
  (h.map Prod.snd).sum_eq

lemma countSum_insertionSort {α : Type} [DecidableEq α]
    (r : α × Nat → α × Nat → Prop) [DecidableRel r] (keys : List α) :
    countSum (List.insertionSort r (groupCounts keys)) = keys.length := by
  rw [countSum_perm (List.perm_insertionSort r (groupCounts keys))]
  exact countSum_groupCounts keys

lemma length_filterMap_eq_length_filter {α β : Type} (f : α → Option β)
    (l : List α) :
    (l.filterMap f).length = (l.filter (fun a => (f a).isSome)).length := by
  induction l with
  | nil => rfl
  | cons a l ih =>
    cases h : f a <;> simp [List.filterMap_cons, List.filter_cons, h, ih]

lemma countSum_countByMonth (records : List BookRecord) :
    countSum (countByMonth records) = countSum (countByMonthYM records) := by
  unfold countByMonth countSum
  rw [List.map_map]
  rfl

lemma isSome_purchaseYear (r : BookRecord) :
    (purchaseYear r).isSome = r.purchase_date.isSome := by
  unfold purchaseYear
  cases r.purchase_date <;> rfl

lemma isSome_purchaseYM (r : BookRecord) :
    (purchaseYM r).isSome = r.purchase_date.isSome := by
  unfold purchaseYM
  cases r.purchase_date <;> rfl

/-- C1: for every input record table, the sum of the counts returned by
each of the five grouping operations equals the number of input records
whose grouped attribute is present (non-null); in particular this holds
for the purchase year. -/
theorem countSum_eq_records_with_attribute (records : List BookRecord) :
    countSum (countByYear records) =
      (records.filter (fun r => r.purchase_date.isSome)).length ∧
    countSum (countByMonth records) =
      (records.filter (fun r => r.purchase_date.isSome)).length ∧
    countSum (countByPublisher records none) =
      (records.filter (fun r => r.publisher.isSome)).length ∧
    countSum (countByAuthor records none) =
      (records.filter (fun r => r.author.isSome)).length ∧
    countSum (countByTag records) =
      (records.filter (fun r => r.content_tag.isSome)).length := by
  refine ⟨?_, ?_, ?_, ?_, ?_⟩
  · rw [countByYear, countSum_insertionSort, length_filterMap_eq_length_filter]
    simp only [isSome_purchaseYear]
  · rw [countSum_countByMonth, countByMonthYM, countSum_insertionSort,
      length_filterMap_eq_length_filter]
    simp only [isSome_purchaseYM]
  · rw [countByPublisher, applyLimit, countSum_insertionSort,
      length_filterMap_eq_length_filter]
  · rw [countByAuthor, applyLimit, countSum_insertionSort,
      length_filterMap_eq_length_filter]
  · rw [countByTag, countSum_insertionSort, length_filterMap_eq_length_filter]

/-- C7: each of the five grouping operations maps the empty record table
to the empty grouped-count table (totally, with no error case). -/
theorem grouping_empty_input (topN : Option Nat) :
    countByYear [] = [] ∧ countByMonth [] = [] ∧
    countByPublisher [] topN = [] ∧ countByAuthor [] topN = [] ∧
    countByTag [] = [] := by
  refine ⟨rfl, rfl, ?_, ?_, rfl⟩ <;>
    cases topN <;>
    simp [countByPublisher, countByAuthor, applyLimit, groupCounts]

/-! ## Ordering of the count-descending groupings -/

/-- Adjacent-entry order claimed for the publisher/author tables: count
strictly descending, or equal counts with the key strictly ascending. -/
def strictCountOrder (a b : String × Nat) : Prop :=
  b.2 < a.2 ∨ (a.2 = b.2 ∧ a.1 < b.1)

lemma sortedCounts_pairwise (keys : List String) (lim : Option Nat) :
    List.Pairwise strictCountOrder
      (applyLimit lim (List.insertionSort countOrder (groupCounts keys))) := by
  have hsorted : List.Pairwise countOrder
      (List.insertionSort countOrder (groupCounts keys)) :=
    List.sorted_insertionSort countOrder (groupCounts keys)
  have hperm := List.perm_insertionSort countOrder (groupCounts keys)
  have hnodup : ((List.insertionSort countOrder (groupCounts keys)).map
      Prod.fst).Nodup := by
    rw [(hperm.map Prod.fst).nodup_iff, groupCounts_map_fst]
    exact keys.nodup_dedup
  have hne : List.Pairwise (fun a b : String × Nat => a.1 ≠ b.1)
      (List.insertionSort countOrder (groupCounts keys)) :=
    List.pairwise_map.1 hnodup
  have hstrict : List.Pairwise strictCountOrder
      (List.insertionSort countOrder (groupCounts keys)) := by
    refine (hsorted.and hne).imp ?_
    rintro ⟨a1, a2⟩ ⟨b1, b2⟩ ⟨hco, hkne⟩
    rcases hco with h | ⟨h1, h2⟩
    · exact Or.inl h
    · exact Or.inr ⟨h1, lt_of_le_of_ne h2 hkne⟩
  cases lim with
  | none => exact hstrict
  | some n => exact hstrict.sublist (List.take_sublist n _)

/-- C2: for every record table and optional top-N, the publisher and
author tables are ordered with counts non-increasing, and any two adjacent
entries of equal count have their keys in strictly ascending
lexicographic order. -/
theorem publisher_author_count_descending (records : List BookRecord)
    (topN : Option Nat) :
    List.Pairwise strictCountOrder (countByPublisher records topN) ∧
    List.Pairwise strictCountOrder (countByAuthor records topN) :=
  ⟨sortedCounts_pairwise _ topN, sortedCounts_pairwise _ topN⟩

/-! ## Chronology of the monthly table -/

/-- The year-months observed among the records' purchase dates. -/
def observedMonths (records : List BookRecord) : List YM :=
  records.filterMap purchaseYM

lemma countByMonthYM_keys_sorted (records : List BookRecord) :
    List.Pairwise ymLt ((countByMonthYM records).map Prod.fst) := by
  have hsorted : List.Pairwise ymOrder (countByMonthYM records) :=
    List.sorted_insertionSort ymOrder _
  have hperm := List.perm_insertionSort ymOrder
    (groupCounts (records.filterMap purchaseYM))
  have hnodup : ((countByMonthYM records).map Prod.fst).Nodup := by
    rw [countByMonthYM, (hperm.map Prod.fst).nodup_iff, groupCounts_map_fst]
    exact List.nodup_dedup _
  rw [List.pairwise_map]
  have hne : List.Pairwise (fun a b : YM × Nat => a.1 ≠ b.1)
      (countByMonthYM records) := List.pairwise_map.1 hnodup
  refine (hsorted.and hne).imp ?_
  rintro a b ⟨hle, hne2⟩
  exact ymLt_of_ymLe_ne _ _ hle hne2

lemma countByMonthYM_keys_mem (records : List BookRecord) (m : YM) :
    m ∈ (countByMonthYM records).map Prod.fst ↔
      m ∈ observedMonths records := by
  have hperm := (List.perm_insertionSort ymOrder
    (groupCounts (records.filterMap purchaseYM))).map Prod.fst
  rw [countByMonthYM, hperm.mem_iff, groupCounts_map_fst, List.mem_dedup]
  rfl

/-- C3: the monthly table's keys are the "YYYY-MM" renderings of a
duplicate-free list of year-months in strictly increasing chronological
order, and that list holds exactly the months observed among the records'
purchase dates — no zero-count rows for unobserved months. -/
theorem month_keys_chronological (records : List BookRecord) :
    ∃ months : List YM,
      List.Pairwise ymLt months ∧
      months.Nodup ∧
      (countByMonth records).map Prod.fst = months.map ymString ∧
      (∀ m : YM, m ∈ months ↔ m ∈ observedMonths records) := by
  refine ⟨(countByMonthYM records).map Prod.fst,
    countByMonthYM_keys_sorted records, ?_, ?_, countByMonthYM_keys_mem records⟩
  · refine List.Pairwise.imp ?_ (countByMonthYM_keys_sorted records)
    intro a b hlt heq
    rw [heq] at hlt
    unfold ymLt at hlt
    omega
  · rw [countByMonth, List.map_map, List.map_map]
    rfl

/-! ## Exporter: limit, sort, and sort-key validation -/

/-- C5: for every table, recognized sort key, direction and limit `n`, the
exporter lists exactly `min n (records.length)` entries, and they are the
first `n` records of the sorted table, the sort being a permutation of the
input ordered under the requested comparison. -/
theorem export_limit_selects_top (records : List BookRecord) (k : SortKey)
    (asc : Bool) (n : Nat) :
    (selectRecords k asc (some n) records).length = min n records.length ∧
    selectRecords k asc (some n) records = (sortRecords k asc records).take n ∧
    (sortRecords k asc records).Perm records ∧
    List.Sorted (recLe k asc) (sortRecords k asc records) := by
  have hperm : (sortRecords k asc records).Perm records :=
    List.perm_insertionSort (recLe k asc) records
  refine ⟨?_, rfl, hperm, List.sorted_insertionSort (recLe k asc) records⟩
  rw [selectRecords, applyLimit, List.length_take, hperm.length_eq]

lemma parseSortKey_eq_none_iff (s : String) :
    parseSortKey s = none ↔ s ∉ recognizedSortKeys := by
  unfold parseSortKey recognizedSortKeys
  split_ifs with h1 h2 h3 h4 h5 <;> simp_all

/-- C4: the exporter fails with `InvalidSortKey` exactly when the
requested sort key is not one of the five recognized column names, and in
that case no document is produced; for every recognized key it succeeds
and produces a document. -/
theorem export_invalid_sort_key (records : List BookRecord) (sortBy : String)
    (asc : Bool) (lim : Option Nat) :
    (exportMarkdown records sortBy asc lim =
        Except.error (ExportError.invalidSortKey sortBy) ↔
      sortBy ∉ recognizedSortKeys) ∧
    (sortBy ∈ recognizedSortKeys →
      ∃ doc, exportMarkdown records sortBy asc lim = Except.ok doc) := by
  cases hp : parseSortKey sortBy with
  | none =>
    have hmem : sortBy ∉ recognizedSortKeys := (parseSortKey_eq_none_iff sortBy).1 hp
    constructor
    · constructor
      · intro _; exact hmem
      · intro _; simp [exportMarkdown, hp]
    · intro hin; exact absurd hin hmem
  | some k =>
    have hmem : sortBy ∈ recognizedSortKeys := by
      by_contra hout
      rw [← parseSortKey_eq_none_iff] at hout
      rw [hp] at hout
      exact Option.some_ne_none k hout
    constructor
    · constructor
      · intro herr
        exfalso
        rw [exportMarkdown, hp] at herr
        exact Except.noConfusion herr
      · intro hout; exact absurd hmem hout
    · intro _
      exact ⟨_, by rw [exportMarkdown, hp]⟩

/-! ## Exporter: document structure -/

/-- Concatenation of entry strings, each followed by the divider. -/
def concatEntries (l : List String) : String :=
  l.foldr (fun e acc => e ++ divider ++ acc) ""

lemma renderBody_eq_concatEntries : ∀ (i : Nat) (l : List BookRecord),
    renderBody i l = concatEntries (entryStrings i l) := by
  intro i l
  induction l generalizing i with
  | nil => rfl
  | cons r rs ih =>
    show formatBook i r ++ divider ++ renderBody (i + 1) rs = _
    rw [ih (i + 1)]
    rfl

lemma entryStrings_length : ∀ (i : Nat) (l : List BookRecord),
    (entryStrings i l).length = l.length := by
  intro i l
  induction l generalizing i with
  | nil => rfl
  | cons r rs ih => simp [entryStrings, ih]

lemma entryStrings_numbering : ∀ (l : List BookRecord) (i j : Nat),
    j < l.length →
    ∃ rest, (entryStrings i l).getD j "" =
      "## " ++ toString (i + j) ++ ". " ++ rest := by
  intro l
  induction l with
  | nil =>
    intro i j h
    exact absurd h (Nat.not_lt_zero j)
  | cons r rs ih =>
    intro i j hj
    cases j with
    | zero =>
      refine ⟨r.title ++ "\n\n" ++
        "- **著者**: " ++ fieldStr r.author ++ "\n" ++
        "- **出版社**: " ++ fieldStr r.publisher ++ "\n" ++
        "- **購入日**: " ++ dateStr r.purchase_date ++ "\n" ++
        "- **出版日**: " ++ dateStr r.publication_date ++ "\n" ++
        tagLine r.content_tag ++ "\n", ?_⟩
      show formatBook i r = _
      simp [formatBook, String.append_assoc]
    | succ j =>
      have hj2 : j < rs.length := by
        simp only [List.length_cons] at hj
        omega
      obtain ⟨rest, hrest⟩ := ih (i + 1) j hj2
      refine ⟨rest, ?_⟩
      have heq : i + (j + 1) = (i + 1) + j := by omega
      rw [heq]
      rw [show (entryStrings i (r :: rs)).getD (j + 1) "" =
        (entryStrings (i + 1) rs).getD j "" from rfl]
      exact hrest

/-- C8: every export with a recognized sort key produces a document that
opens with the total-count header and continues with the selected entries,
numbered sequentially from 1, each followed by the divider. -/
theorem export_document_structure (records : List BookRecord)
    (sortBy : String) (asc : Bool) (lim : Option Nat) (k : SortKey)
    (hk : parseSortKey sortBy = some k) (_hne : records ≠ []) :
    ∃ body,
      exportMarkdown records sortBy asc lim =
        Except.ok (mkHeader records.length ++ body) ∧
      body = concatEntries (entryStrings 1 (selectRecords k asc lim records)) ∧
      ∀ j, j < (selectRecords k asc lim records).length →
        ∃ rest,
          (entryStrings 1 (selectRecords k asc lim records)).getD j "" =
            "## " ++ toString (j + 1) ++ ". " ++ rest := by
  refine ⟨renderBody 1 (selectRecords k asc lim records), ?_, ?_, ?_⟩
  · rw [exportMarkdown, hk]
    rfl
  · exact renderBody_eq_concatEntries 1 _
  · intro j hj
    obtain ⟨rest, hrest⟩ :=
      entryStrings_numbering (selectRecords k asc lim records) 1 j hj
    rw [Nat.add_comm 1 j] at hrest
    exact ⟨rest, hrest⟩

/-- C9: a missing author, publisher or publication date is rendered in the
entry as the explicit, non-empty placeholder, not omitted and not blank. -/
theorem export_missing_fields_placeholder (i : Nat) (r : BookRecord)
    (ha : r.author = none) (hp : r.publisher = none)
    (hd : r.publication_date = none) :
    missingField ≠ "" ∧
    (∃ s t, formatBook i r =
      s ++ ("- **著者**: " ++ missingField ++ "\n") ++ t) ∧
    (∃ s t, formatBook i r =
      s ++ ("- **出版社**: " ++ missingField ++ "\n") ++ t) ∧
    (∃ s t, formatBook i r =
      s ++ ("- **出版日**: " ++ missingField ++ "\n") ++ t) := by
  refine ⟨by decide, ⟨?_, ?_⟩, ⟨?_, ?_⟩, ⟨?_, ?_⟩⟩
  · exact "## " ++ toString i ++ ". " ++ r.title ++ "\n\n"
  · exact ⟨"- **出版社**: " ++ fieldStr r.publisher ++ "\n" ++
      "- **購入日**: " ++ dateStr r.purchase_date ++ "\n" ++
      "- **出版日**: " ++ dateStr r.publication_date ++ "\n" ++
      tagLine r.content_tag ++ "\n",
      by simp only [formatBook, fieldStr, ha, String.append_assoc]⟩
  · exact "## " ++ toString i ++ ". " ++ r.title ++ "\n\n" ++
      "- **著者**: " ++ fieldStr r.author ++ "\n"
  · exact ⟨"- **購入日**: " ++ dateStr r.purchase_date ++ "\n" ++
      "- **出版日**: " ++ dateStr r.publication_date ++ "\n" ++
      tagLine r.content_tag ++ "\n",
      by simp only [formatBook, fieldStr, hp, String.append_assoc]⟩
  · exact "## " ++ toString i ++ ". " ++ r.title ++ "\n\n" ++
      "- **著者**: " ++ fieldStr r.author ++ "\n" ++
      "- **出版社**: " ++ fieldStr r.publisher ++ "\n" ++
      "- **購入日**: " ++ dateStr r.purchase_date ++ "\n"
  · exact ⟨tagLine r.content_tag ++ "\n",
      by simp only [formatBook, dateStr, hd, String.append_assoc]⟩

/-- C10: the exporter's documented defaults sort by purchase date in
descending order, so the default export lists records whose purchase
dates are non-increasing — most recently purchased first. -/
theorem default_export_most_recent_first (records : List BookRecord) :
    parseSortKey defaultSortBy = some SortKey.purchase_date ∧
    defaultAscending = false ∧
    exportDefault records =
      Except.ok (renderDocument records
        (sortRecords SortKey.purchase_date false records)) ∧
    List.Sorted (recLe SortKey.purchase_date false)
      (sortRecords SortKey.purchase_date false records) ∧
    List.Pairwise
      (fun a b : BookRecord => ∀ da db : Date,
        a.purchase_date = some da → b.purchase_date = some db → dateLe db da)
      (sortRecords SortKey.purchase_date false records) := by
  refine ⟨rfl, rfl, rfl, List.sorted_insertionSort _ _, ?_⟩
  refine List.Pairwise.imp ?_
    (List.sorted_insertionSort (recLe SortKey.purchase_date false) records)
  intro a b h da db hda hdb
  have h2 : optLe dateLe true a.purchase_date b.purchase_date := h
  rw [hda, hdb] at h2
  simpa [optLe] using h2

/-! ## Chart labelling -/

lemma barTextLabels_length : ∀ (i : Nat) (vs : List Nat),
    (barTextLabels i vs).length = vs.length := by
  intro i vs
  induction vs generalizing i with
  | nil => rfl
  | cons v vs ih => simp [barTextLabels, ih]

lemma barTextLabels_getD : ∀ (vs : List Nat) (i j : Nat), j < vs.length →
    (barTextLabels i vs).getD j ⟨0, ""⟩ = ⟨i + j, toString (vs.getD j 0)⟩ := by
  intro vs
  induction vs with
  | nil =>
    intro i j h
    exact absurd h (Nat.not_lt_zero j)
  | cons v vs ih =>
    intro i j hj
    cases j with
    | zero => rfl
    | succ j =>
      have hj2 : j < vs.length := by
        simp only [List.length_cons] at hj
        omega
      have heq : i + (j + 1) = (i + 1) + j := by omega
      rw [show (barTextLabels i (v :: vs)).getD (j + 1) ⟨0, ""⟩ =
        (barTextLabels (i + 1) vs).getD j ⟨0, ""⟩ from rfl]
      rw [show ((v :: vs).getD (j + 1) 0) = vs.getD j 0 from rfl]
      rw [heq]
      exact ih (i + 1) j hj2

lemma map_snd_getD : ∀ (l : List (String × Nat)) (j : Nat), j < l.length →
    (l.map Prod.snd).getD j 0 = (l.getD j ("", 0)).2 := by
  intro l
  induction l with
  | nil =>
    intro j h
    exact absurd h (Nat.not_lt_zero j)
  | cons p l ih =>
    intro j hj
    cases j with
    | zero => rfl
    | succ j =>
      have hj2 : j < l.length := by
        simp only [List.length_cons] at hj
        omega
      exact ih j hj2

/-- C6 (amended): every bar of the notebook's categorical bar charts
carries a text label with the decimal rendering of its count, but the
monthly line chart places no count labels on its points. -/
theorem bar_charts_labelled_line_chart_not (data : List (String × Nat)) :
    (renderBarChart data).labels.length = (renderBarChart data).points.length ∧
    (∀ j, j < data.length →
      ((renderBarChart data).labels.getD j ⟨0, ""⟩).text =
        toString ((data.getD j ("", 0)).2)) ∧
    (renderMonthlyChart data).labels = [] := by
  refine ⟨?_, ?_, rfl⟩
  · show (barTextLabels 0 (data.map Prod.snd)).length = data.length
    rw [barTextLabels_length, List.length_map]
  · intro j hj
    have hj2 : j < (data.map Prod.snd).length := by
      rw [List.length_map]
      exact hj
    show ((barTextLabels 0 (data.map Prod.snd)).getD j ⟨0, ""⟩).text = _
    rw [barTextLabels_getD _ 0 j hj2, map_snd_getD data j hj]

/-- C6 (counterexample to the claim as stated): the monthly line chart of
a one-point series has a point but no count label at all, so not every
point is annotated with its numeric count. -/
theorem monthly_chart_unlabelled : 
    (renderMonthlyChart [("2024-01", 1)]).points.length = 1 ∧
    (renderMonthlyChart [("2024-01", 1)]).labels = [] :=
  ⟨rfl, rfl⟩

/-! ## Concrete witnesses -/

/-- The two-record scenario table of the specification (titles "A" and
"B", shared publisher "X", purchases 2024-01-10 and 2024-03-05). -/
def sampleRecords : List BookRecord :=
  [{ title := "A", author := some "Alice", publisher := some "X",
     purchase_date := some ⟨2024, 1, 10⟩, publication_date := none,
     content_tag := some "comic" },
   { title := "B", author := some "Bob", publisher := some "X",
     purchase_date := some ⟨2024, 3, 5⟩, publication_date := none,
     content_tag := none }]

/-- A record with every optional field missing. -/
def noFieldBook : BookRecord :=
  { title := "T", author := none, publisher := none,
    purchase_date := none, publication_date := none, content_tag := none }

/-- Witness for C3 at the specification's two-record scenario table. -/
theorem month_keys_chronological_witness :
    ∃ months : List YM,
      List.Pairwise ymLt months ∧
      months.Nodup ∧
      (countByMonth sampleRecords).map Prod.fst = months.map ymString ∧
      (∀ m : YM, m ∈ months ↔ m ∈ observedMonths sampleRecords) :=
  month_keys_chronological sampleRecords

/-- Witness for C4: the unrecognized key "isbn" fails with
`InvalidSortKey` and yields no document, while the recognized key
"author" succeeds. -/
theorem export_invalid_sort_key_witness :
    exportMarkdown sampleRecords "isbn" false none =
      Except.error (ExportError.invalidSortKey "isbn") ∧
    ∃ doc, exportMarkdown sampleRecords "author" false none =
      Except.ok doc :=
  ⟨(export_invalid_sort_key sampleRecords "isbn" false none).1.mpr (by decide),
   (export_invalid_sort_key sampleRecords "author" false none).2 (by decide)⟩

/-- Witness for C8 at the scenario table, sorted by author ascending. -/
theorem export_document_structure_witness :
    ∃ body,
      exportMarkdown sampleRecords "author" true none =
        Except.ok (mkHeader sampleRecords.length ++ body) ∧
      body = concatEntries (entryStrings 1
        (selectRecords SortKey.author true none sampleRecords)) ∧
      ∀ j, j < (selectRecords SortKey.author true none sampleRecords).length →
        ∃ rest,
          (entryStrings 1
              (selectRecords SortKey.author true none sampleRecords)).getD
              j "" =
            "## " ++ toString (j + 1) ++ ". " ++ rest :=
  export_document_structure sampleRecords "author" true none SortKey.author
    (by decide) (by decide)

/-- Witness for C9 at a record with all optional fields missing. -/
theorem export_missing_fields_placeholder_witness :
    missingField ≠ "" ∧
    (∃ s t, formatBook 1 noFieldBook =
      s ++ ("- **著者**: " ++ missingField ++ "\n") ++ t) ∧
    (∃ s t, formatBook 1 noFieldBook =
      s ++ ("- **出版社**: " ++ missingField ++ "\n") ++ t) ∧
    (∃ s t, formatBook 1 noFieldBook =
      s ++ ("- **出版日**: " ++ missingField ++ "\n") ++ t) :=
  export_missing_fields_placeholder 1 noFieldBook rfl rfl rfl

/-- Witness for C10 at the scenario table. -/
theorem default_export_most_recent_first_witness :
    parseSortKey defaultSortBy = some SortKey.purchase_date ∧
    defaultAscending = false ∧
    exportDefault sampleRecords =
      Except.ok (renderDocument sampleRecords
        (sortRecords SortKey.purchase_date false sampleRecords)) ∧
    List.Sorted (recLe SortKey.purchase_date false)
      (sortRecords SortKey.purchase_date false sampleRecords) ∧
    List.Pairwise
      (fun a b : BookRecord => ∀ da db : Date,
        a.purchase_date = some da → b.purchase_date = some db → dateLe db da)
      (sortRecords SortKey.purchase_date false sampleRecords) :=
  default_export_most_recent_first sampleRecords

/-- Witness for the amended C6 at a one-bar chart: the bar's label text is
the count's decimal rendering, and the line chart over the same data has
no labels. -/
theorem bar_charts_labelled_line_chart_not_witness :
    ((renderBarChart [("2024", 2)]).labels.getD 0 ⟨0, ""⟩).text = "2" ∧
    (renderMonthlyChart [("2024", 2)]).labels = [] :=
  ⟨((bar_charts_labelled_line_chart_not [("2024", 2)]).2.1 0
      (by decide)).trans rfl,
   (bar_charts_labelled_line_chart_not [("2024", 2)]).2.2⟩
